import Mathlib

/-!
Verification of the Motorcycle Record Store (`MotorcycleDAL`) and the OCR
field extractor (`get_ocr_result_with_boxes`) from `ph_motorcycle_ocr.py`.

Modelling conventions:
* A MongoDB collection is a `List Motorcycle`; `find_one` is first-match
  lookup, `update_one` updates the first matching document, `delete_one`
  removes the first matching document.
* `MotorcycleDAL.collection = none` models the constructor's failure path
  (`self.collection = None` after a connection error).
* Each mutating method wraps its store call in `try/except Exception`; the
  `fault` argument models whether that underlying store call raises an
  unexpected (non-DuplicateKey) exception instead of performing the
  operation, in which case the method returns `False` with no write.
* The unique index on `plate_number` makes `insert_one` raise
  `DuplicateKeyError` exactly when a document with the same plate number is
  already present; the model tests this directly on the list.
-/

structure Motorcycle where
  plate_number : String
  region : String
  blacklisted : Bool
  expired : Bool
  violations : Bool
deriving DecidableEq, Repr

/-- The DAL state: `none` models a failed connection (`self.collection = None`). -/
structure MotorcycleDAL where
  collection : Option (List Motorcycle)
deriving DecidableEq, Repr

/-- The filter document `{"plate_number": plate_number}` used by every query. -/
def plateMatches (p : String) (m : Motorcycle) : Bool :=
  m.plate_number == p

/-- Mongo `update_one`: applies `f` to the first document satisfying `q`. -/
def update_first (q : Motorcycle → Bool) (f : Motorcycle → Motorcycle) :
    List Motorcycle → List Motorcycle
  | [] => []
  | m :: rest => if q m then f m :: rest else m :: update_first q f rest

/-- The `$set {field_to_update: status}` document of `_update_status_flag`.
Only the three flag fields are ever passed by the code; any other field name
would extend the document, which the closed record type cannot represent, so
it is modelled as a no-op. -/
def setField (field : String) (status : Bool) (m : Motorcycle) : Motorcycle :=
  if field == "blacklisted" then { m with blacklisted := status }
  else if field == "expired" then { m with expired := status }
  else if field == "violations" then { m with violations := status }
  else m

/-- The `$set` document of `clear_all_statuses`: all three flags to `False`. -/
def clearFlags (m : Motorcycle) : Motorcycle :=
  { m with blacklisted := false, expired := false, violations := false }

/-- `insert_motorcycle(plate_number, region, blacklisted, expired, violations)`.
The Python signature defaults the three flags to `False`; callers of the model
pass them explicitly. Returns the new DAL state and the `bool` result. -/
def insert_motorcycle (dal : MotorcycleDAL) (fault : Bool)
    (plate_number region : String) (blacklisted expired violations : Bool) :
    MotorcycleDAL × Bool :=
  match dal.collection with
  | none => (dal, false)
  | some coll =>
    if fault then (dal, false)
    else if coll.any (plateMatches plate_number) then
      (dal, false)
    else
      ({ collection := some (coll ++
          [⟨plate_number, region, blacklisted, expired, violations⟩]) }, true)

/-- `_update_status_flag(plate_number, field_to_update, status)`: `update_one`
with `$set`, returning `True` iff `matched_count > 0`. -/
def _update_status_flag (dal : MotorcycleDAL) (fault : Bool)
    (plate_number field_to_update : String) (status : Bool) :
    MotorcycleDAL × Bool :=
  match dal.collection with
  | none => (dal, false)
  | some coll =>
    if fault then (dal, false)
    else if coll.any (plateMatches plate_number) then
      ({ collection := some (update_first (plateMatches plate_number)
          (setField field_to_update status) coll) }, true)
    else
      (dal, false)

/-- `update_blacklisted_status(plate_number)`. -/
def update_blacklisted_status (dal : MotorcycleDAL) (fault : Bool)
    (plate_number : String) : MotorcycleDAL × Bool :=
  _update_status_flag dal fault plate_number "blacklisted" true

/-- `update_expired_status(plate_number)`. -/
def update_expired_status (dal : MotorcycleDAL) (fault : Bool)
    (plate_number : String) : MotorcycleDAL × Bool :=
  _update_status_flag dal fault plate_number "expired" true

/-- `update_violations_status(plate_number)`. -/
def update_violations_status (dal : MotorcycleDAL) (fault : Bool)
    (plate_number : String) : MotorcycleDAL × Bool :=
  _update_status_flag dal fault plate_number "violations" true

/-- `clear_all_statuses(plate_number)`: one `update_one` with a `$set` of the
three flags to `False`; `True` iff `matched_count > 0`. -/
def clear_all_statuses (dal : MotorcycleDAL) (fault : Bool)
    (plate_number : String) : MotorcycleDAL × Bool :=
  match dal.collection with
  | none => (dal, false)
  | some coll =>
    if fault then (dal, false)
    else if coll.any (plateMatches plate_number) then
      ({ collection := some (update_first (plateMatches plate_number)
          clearFlags coll) }, true)
    else
      (dal, false)

/-- `delete_motorcycle(plate_number)`: `delete_one`, `True` iff
`deleted_count > 0`. -/
def delete_motorcycle (dal : MotorcycleDAL) (fault : Bool)
    (plate_number : String) : MotorcycleDAL × Bool :=
  match dal.collection with
  | none => (dal, false)
  | some coll =>
    if fault then (dal, false)
    else if coll.any (plateMatches plate_number) then
      ({ collection := some (coll.eraseP (plateMatches plate_number)) }, true)
    else
      (dal, false)

/-- `find_motorcycle(plate_number)`: `find_one`, no `try/except` in the source,
but it does return `None` when the collection handle is absent. -/
def find_motorcycle (dal : MotorcycleDAL) (plate_number : String) :
    Option Motorcycle :=
  match dal.collection with
  | none => none
  | some coll => coll.find? (plateMatches plate_number)

/-- One words block of the OCR response: recognized text plus its corner
points (each an `[x, y]` pair). -/
structure WordsBlock where
  words : String
  location : List (Int × Int)
deriving DecidableEq, Repr

/-- The sort key `b.location[0][1]` (y coordinate of the first corner point).
The provider always supplies four corner points; an absent point is modelled
as the origin. -/
def blockY (b : WordsBlock) : Int :=
  (b.location.headD (0, 0)).2

/-- The comparison used by `sorted(..., key=lambda b: b.location[0][1])`. -/
def byY (a b : WordsBlock) : Prop :=
  blockY a ≤ blockY b

instance : DecidableRel byY := fun a b => Int.decLe (blockY a) (blockY b)

instance : IsTotal WordsBlock byY := ⟨fun a b => Int.le_total (blockY a) (blockY b)⟩

instance : IsTrans WordsBlock byY := ⟨fun _ _ _ h1 h2 => le_trans h1 h2⟩

/-- Python `str.strip()`: drop whitespace from both ends. -/
def pyStrip (s : String) : String :=
  ⟨((s.data.dropWhile Char.isWhitespace).reverse.dropWhile Char.isWhitespace).reverse⟩

/-- The field-extraction logic of `get_ocr_result_with_boxes` applied to the
`words_block_list` of a successful OCR response (an absent `response.result`
is the empty list; the `except` branches around the network call are outside
the extraction logic modelled here). Python `sorted` is a stable sort,
modelled by insertion sort. Returns `(plate_number, region, all_locations)`. -/
def get_ocr_result_with_boxes (words_block_list : List WordsBlock) :
    String × String × List (List (Int × Int)) :=
  if words_block_list.isEmpty then
    ("No text found.", "", [])
  else
    let sorted_blocks := words_block_list.insertionSort byY
    let all_locations := sorted_blocks.map (fun b => b.location)
    let plate_number :=
      if 1 ≤ sorted_blocks.length then
        pyStrip (sorted_blocks.headD ⟨"", []⟩).words
      else ""
    let region :=
      if 2 ≤ sorted_blocks.length then
        pyStrip ((sorted_blocks.drop 1).headD ⟨"", []⟩).words
      else ""
    (plate_number, region, all_locations)

/-- An arbitrary sequence of mutating record-store operations. -/
inductive Op where
  | ins (fault : Bool) (p r : String) (b e v : Bool)
  | setBlack (fault : Bool) (p : String)
  | setExpired (fault : Bool) (p : String)
  | setViolations (fault : Bool) (p : String)
  | clearAll (fault : Bool) (p : String)
  | del (fault : Bool) (p : String)
deriving DecidableEq, Repr

/-- State reached after one operation (the returned flag is discarded). -/
def applyOp (dal : MotorcycleDAL) : Op → MotorcycleDAL
  | .ins fault p r b e v => (insert_motorcycle dal fault p r b e v).1
  | .setBlack fault p => (update_blacklisted_status dal fault p).1
  | .setExpired fault p => (update_expired_status dal fault p).1
  | .setViolations fault p => (update_violations_status dal fault p).1
  | .clearAll fault p => (clear_all_statuses dal fault p).1
  | .del fault p => (delete_motorcycle dal fault p).1

/-- State reached after a sequence of operations. -/
def applyOps (dal : MotorcycleDAL) (ops : List Op) : MotorcycleDAL :=
  ops.foldl applyOp dal

/-- The uniqueness invariant: no two records share a plate number. -/
def UniquePlates (dal : MotorcycleDAL) : Prop :=
  ∀ coll, dal.collection = some coll →
    (coll.map Motorcycle.plate_number).Nodup

/-! ### Helper lemmas about the modelled Mongo primitives -/

lemma plateMatches_iff {p : String} {m : Motorcycle} :
    plateMatches p m = true ↔ m.plate_number = p := by
  simp [plateMatches]

lemma any_eq_false_of_find?_eq_none {q : Motorcycle → Bool} {l : List Motorcycle}
    (h : l.find? q = none) : l.any q = false := by
  rw [Bool.eq_false_iff]
  intro hany
  rcases List.any_eq_true.mp hany with ⟨x, hx, hq⟩
  exact (List.find?_eq_none.mp h x hx) hq

lemma any_eq_true_of_find?_eq_some {q : Motorcycle → Bool} {l : List Motorcycle}
    {m : Motorcycle} (h : l.find? q = some m) : l.any q = true :=
  List.any_eq_true.mpr ⟨m, List.mem_of_find?_eq_some h, List.find?_some h⟩

lemma find?_append_singleton {q : Motorcycle → Bool} {l : List Motorcycle}
    {m : Motorcycle} (h : l.find? q = none) (hm : q m = true) :
    (l ++ [m]).find? q = some m := by
  rw [List.find?_append, h]
  simp [List.find?_cons_of_pos _ hm]

lemma find?_update_first {q : Motorcycle → Bool} {f : Motorcycle → Motorcycle}
    (hq : ∀ m, q (f m) = q m) :
    ∀ l : List Motorcycle, (update_first q f l).find? q = (l.find? q).map f := by
  intro l
  induction l with
  | nil => rfl
  | cons m t ih =>
    by_cases hm : q m = true
    · rw [update_first, if_pos hm, List.find?_cons_of_pos _ ((hq m).trans hm),
        List.find?_cons_of_pos _ hm]
      rfl
    · rw [update_first, if_neg hm, List.find?_cons_of_neg _ hm,
        List.find?_cons_of_neg _ hm, ih]

lemma find?_update_first_frame {q q' : Motorcycle → Bool}
    {f : Motorcycle → Motorcycle} (hq' : ∀ m, q' (f m) = q' m)
    (hdisj : ∀ m, q m = true → q' m = false) :
    ∀ l : List Motorcycle, (update_first q f l).find? q' = l.find? q' := by
  intro l
  induction l with
  | nil => rfl
  | cons m t ih =>
    by_cases hm : q m = true
    · have h1 : ¬q' (f m) = true := by
        rw [hq' m, hdisj m hm]; exact Bool.false_ne_true
      have h2 : ¬q' m = true := by
        rw [hdisj m hm]; exact Bool.false_ne_true
      rw [update_first, if_pos hm, List.find?_cons_of_neg _ h1,
        List.find?_cons_of_neg _ h2]
    · by_cases hm' : q' m = true
      · rw [update_first, if_neg hm, List.find?_cons_of_pos _ hm',
          List.find?_cons_of_pos _ hm']
      · rw [update_first, if_neg hm, List.find?_cons_of_neg _ hm',
          List.find?_cons_of_neg _ hm', ih]

lemma update_first_idem {q : Motorcycle → Bool} {f : Motorcycle → Motorcycle}
    (hq : ∀ m, q (f m) = q m) (hf : ∀ m, f (f m) = f m) :
    ∀ l : List Motorcycle, update_first q f (update_first q f l) = update_first q f l := by
  intro l
  induction l with
  | nil => rfl
  | cons m t ih =>
    by_cases hm : q m = true
    · rw [update_first, if_pos hm, update_first, if_pos ((hq m).trans hm), hf]
    · rw [update_first, if_neg hm, update_first, if_neg hm, ih]

lemma map_plate_update_first {q : Motorcycle → Bool} {f : Motorcycle → Motorcycle}
    (hp : ∀ m, (f m).plate_number = m.plate_number) :
    ∀ l : List Motorcycle,
      (update_first q f l).map Motorcycle.plate_number = l.map Motorcycle.plate_number := by
  intro l
  induction l with
  | nil => rfl
  | cons m t ih =>
    by_cases hm : q m = true
    · rw [update_first, if_pos hm, List.map_cons, List.map_cons, hp]
    · rw [update_first, if_neg hm, List.map_cons, List.map_cons, ih]

lemma find?_eraseP_self {P : String} :
    ∀ l : List Motorcycle, (l.map Motorcycle.plate_number).Nodup →
      (l.eraseP (plateMatches P)).find? (plateMatches P) = none := by
  intro l
  induction l with
  | nil => intro _; rfl
  | cons m t ih =>
    intro hn
    rw [List.map_cons, List.nodup_cons] at hn
    by_cases hm : plateMatches P m = true
    · rw [List.eraseP_cons_of_pos hm, List.find?_eq_none]
      intro x hx hqx
      exact hn.1 (List.mem_map.mpr ⟨x, hx,
        (plateMatches_iff.mp hqx).trans (plateMatches_iff.mp hm).symm⟩)
    · rw [List.eraseP_cons_of_neg hm, List.find?_cons_of_neg _ hm]
      exact ih hn.2

lemma find?_eraseP_frame {q q' : Motorcycle → Bool}
    (hdisj : ∀ m, q m = true → q' m = false) :
    ∀ l : List Motorcycle, (l.eraseP q).find? q' = l.find? q' := by
  intro l
  induction l with
  | nil => rfl
  | cons m t ih =>
    by_cases hm : q m = true
    · have h2 : ¬q' m = true := by
        rw [hdisj m hm]; exact Bool.false_ne_true
      rw [List.eraseP_cons_of_pos hm, List.find?_cons_of_neg _ h2]
    · by_cases hm' : q' m = true
      · rw [List.eraseP_cons_of_neg hm, List.find?_cons_of_pos _ hm',
          List.find?_cons_of_pos _ hm']
      · rw [List.eraseP_cons_of_neg hm, List.find?_cons_of_neg _ hm',
          List.find?_cons_of_neg _ hm', ih]

lemma setField_plate (field : String) (s : Bool) (m : Motorcycle) :
    (setField field s m).plate_number = m.plate_number := by
  unfold setField
  split_ifs <;> rfl

lemma setField_keeps_plateMatches (P field : String) (s : Bool) (m : Motorcycle) :
    plateMatches P (setField field s m) = plateMatches P m := by
  unfold plateMatches
  rw [setField_plate]

lemma setField_idem (field : String) (s : Bool) (m : Motorcycle) :
    setField field s (setField field s m) = setField field s m := by
  unfold setField
  split_ifs <;> rfl

lemma clearFlags_keeps_plateMatches (P : String) (m : Motorcycle) :
    plateMatches P (clearFlags m) = plateMatches P m := rfl

lemma clearFlags_idem (m : Motorcycle) : clearFlags (clearFlags m) = clearFlags m := rfl

lemma update_status_flag_found {coll : List Motorcycle} {P field : String} {s : Bool}
    {m : Motorcycle} (h : coll.find? (plateMatches P) = some m) :
    _update_status_flag ⟨some coll⟩ false P field s
      = (⟨some (update_first (plateMatches P) (setField field s) coll)⟩, true) ∧
    find_motorcycle (_update_status_flag ⟨some coll⟩ false P field s).1 P
      = some (setField field s m) := by
  have hany := any_eq_true_of_find?_eq_some h
  have hstate : _update_status_flag ⟨some coll⟩ false P field s
      = (⟨some (update_first (plateMatches P) (setField field s) coll)⟩, true) := by
    simp [_update_status_flag, hany]
  refine ⟨hstate, ?_⟩
  rw [hstate]
  show (update_first (plateMatches P) (setField field s) coll).find? (plateMatches P)
      = some (setField field s m)
  rw [find?_update_first (fun x => setField_keeps_plateMatches P field s x) coll, h]
  rfl

lemma update_status_flag_notfound {coll : List Motorcycle} {P field : String}
    {s : Bool} (h : coll.find? (plateMatches P) = none) :
    _update_status_flag ⟨some coll⟩ false P field s = (⟨some coll⟩, false) := by
  have hany := any_eq_false_of_find?_eq_none h
  simp [_update_status_flag, hany]

/-! ### C10: totality when the collection handle is absent -/

/-- C10: when the database connection failed at construction (collection
handle absent), every operation returns its failure value (`false`, or `none`
for find) without modifying any store state. -/
theorem operations_total_when_collection_absent (fault : Bool)
    (p r field : String) (b e v s : Bool) :
    insert_motorcycle ⟨none⟩ fault p r b e v = (⟨none⟩, false) ∧
    _update_status_flag ⟨none⟩ fault p field s = (⟨none⟩, false) ∧
    update_blacklisted_status ⟨none⟩ fault p = (⟨none⟩, false) ∧
    update_expired_status ⟨none⟩ fault p = (⟨none⟩, false) ∧
    update_violations_status ⟨none⟩ fault p = (⟨none⟩, false) ∧
    clear_all_statuses ⟨none⟩ fault p = (⟨none⟩, false) ∧
    delete_motorcycle ⟨none⟩ fault p = (⟨none⟩, false) ∧
    find_motorcycle ⟨none⟩ p = none :=
  ⟨rfl, rfl, rfl, rfl, rfl, rfl, rfl, rfl⟩

/-! ### C1: the claimed distinguishability of failure outcomes fails -/

/-- C1 counterexample: the store-unavailable outcome and the business
rejection (duplicate key / not found) produce the very same caller-visible
value `false`, so they are conflated, contrary to the claim. -/
theorem insert_conflates_unavailable_with_duplicate :
    ((insert_motorcycle ⟨none⟩ false "NIJ1234" "Metro Manila" false false false).2
      = (insert_motorcycle ⟨some [⟨"NIJ1234", "Metro Manila", false, false, false⟩]⟩
          false "NIJ1234" "Metro Manila" false false false).2) ∧
    ((update_blacklisted_status ⟨none⟩ false "NIJ1234").2
      = (update_blacklisted_status ⟨some []⟩ false "NIJ1234").2) ∧
    ((delete_motorcycle ⟨none⟩ false "NIJ1234").2
      = (delete_motorcycle ⟨some []⟩ false "NIJ1234").2) := by
  refine ⟨?_, ?_, ?_⟩ <;> decide

/-- C1 amended: every operation collapses both infrastructure failures
(absent collection handle, unexpected store exception) and business
rejections (duplicate key, not found) into the same returned value `false`
(`none` for find); the outcomes are not distinguishable from the result. -/
theorem dal_failures_collapse_to_false (p r field : String) (b e v s : Bool)
    (coll : List Motorcycle) :
    ((insert_motorcycle ⟨none⟩ false p r b e v).2 = false) ∧
    ((insert_motorcycle ⟨some coll⟩ true p r b e v).2 = false) ∧
    (coll.any (plateMatches p) = true →
      (insert_motorcycle ⟨some coll⟩ false p r b e v).2 = false) ∧
    ((_update_status_flag ⟨none⟩ false p field s).2 = false) ∧
    ((_update_status_flag ⟨some coll⟩ true p field s).2 = false) ∧
    (coll.any (plateMatches p) = false →
      (_update_status_flag ⟨some coll⟩ false p field s).2 = false) ∧
    ((clear_all_statuses ⟨none⟩ false p).2 = false) ∧
    ((clear_all_statuses ⟨some coll⟩ true p).2 = false) ∧
    (coll.any (plateMatches p) = false →
      (clear_all_statuses ⟨some coll⟩ false p).2 = false) ∧
    ((delete_motorcycle ⟨none⟩ false p).2 = false) ∧
    ((delete_motorcycle ⟨some coll⟩ true p).2 = false) ∧
    (coll.any (plateMatches p) = false →
      (delete_motorcycle ⟨some coll⟩ false p).2 = false) ∧
    (find_motorcycle ⟨none⟩ p = none) := by
  refine ⟨rfl, rfl, ?_, rfl, rfl, ?_, rfl, rfl, ?_, rfl, rfl, ?_, rfl⟩
  · intro h; simp [insert_motorcycle, h]
  · intro h; simp [_update_status_flag, h]
  · intro h; simp [clear_all_statuses, h]
  · intro h; simp [delete_motorcycle, h]

theorem dal_failures_collapse_to_false_witness :
    (insert_motorcycle ⟨some [⟨"AAA111", "R", false, false, false⟩]⟩
      false "AAA111" "R" false false false).2 = false ∧
    (_update_status_flag ⟨some []⟩ false "AAA111" "blacklisted" true).2 = false ∧
    (clear_all_statuses ⟨some []⟩ false "AAA111").2 = false ∧
    (delete_motorcycle ⟨some []⟩ false "AAA111").2 = false := by
  refine ⟨?_, ?_, ?_, ?_⟩
  · exact (dal_failures_collapse_to_false "AAA111" "R" "blacklisted" false false false true
      [⟨"AAA111", "R", false, false, false⟩]).2.2.1 (by decide)
  · exact (dal_failures_collapse_to_false "AAA111" "R" "blacklisted" false false false true
      []).2.2.2.2.2.1 (by decide)
  · exact (dal_failures_collapse_to_false "AAA111" "R" "blacklisted" false false false true
      []).2.2.2.2.2.2.2.2.1 (by decide)
  · exact (dal_failures_collapse_to_false "AAA111" "R" "blacklisted" false false false true
      []).2.2.2.2.2.2.2.2.2.2.2.1 (by decide)

/-! ### C4: fresh insert then find -/

/-- C4: inserting a plate number not in the store succeeds, and a subsequent
find returns the inserted record: the given plate number, region, and exactly
the supplied flag values (all-false when the Python defaults are used). -/
theorem insert_fresh_then_find (coll : List Motorcycle) (P r : String)
    (b e v : Bool) (h : find_motorcycle ⟨some coll⟩ P = none) :
    (insert_motorcycle ⟨some coll⟩ false P r b e v).2 = true ∧
    find_motorcycle (insert_motorcycle ⟨some coll⟩ false P r b e v).1 P
      = some ⟨P, r, b, e, v⟩ := by
  have hf : coll.find? (plateMatches P) = none := h
  have hany := any_eq_false_of_find?_eq_none hf
  have hstate : insert_motorcycle ⟨some coll⟩ false P r b e v
      = (⟨some (coll ++ [⟨P, r, b, e, v⟩])⟩, true) := by
    simp [insert_motorcycle, hany]
  rw [hstate]
  refine ⟨rfl, ?_⟩
  show (coll ++ [(⟨P, r, b, e, v⟩ : Motorcycle)]).find? (plateMatches P)
      = some (⟨P, r, b, e, v⟩ : Motorcycle)
  exact find?_append_singleton hf (by simp [plateMatches])

theorem insert_fresh_then_find_witness :
    (insert_motorcycle ⟨some []⟩ false "NIJ1234" "Metro Manila" false false false).2 = true ∧
    find_motorcycle
      (insert_motorcycle ⟨some []⟩ false "NIJ1234" "Metro Manila" false false false).1
      "NIJ1234" = some ⟨"NIJ1234", "Metro Manila", false, false, false⟩ :=
  insert_fresh_then_find [] "NIJ1234" "Metro Manila" false false false (by decide)

/-! ### C5: duplicate insert is rejected with no state change -/

/-- C5: insert of an already-present plate number reports the duplicate-key
outcome (`false` from the `DuplicateKeyError` branch) and leaves the entire
store state unchanged. -/
theorem insert_duplicate_rejected_no_change (coll : List Motorcycle)
    (P r : String) (b e v : Bool) (m : Motorcycle)
    (h : find_motorcycle ⟨some coll⟩ P = some m) :
    insert_motorcycle ⟨some coll⟩ false P r b e v = (⟨some coll⟩, false) := by
  have hf : coll.find? (plateMatches P) = some m := h
  have hany := any_eq_true_of_find?_eq_some hf
  simp [insert_motorcycle, hany]

theorem insert_duplicate_rejected_no_change_witness :
    insert_motorcycle ⟨some [⟨"NIJ1234", "Metro Manila", false, false, false⟩]⟩
      false "NIJ1234" "Davao" true true true
      = (⟨some [⟨"NIJ1234", "Metro Manila", false, false, false⟩]⟩, false) :=
  insert_duplicate_rejected_no_change [⟨"NIJ1234", "Metro Manila", false, false, false⟩]
    "NIJ1234" "Davao" true true true ⟨"NIJ1234", "Metro Manila", false, false, false⟩
    (by decide)

/-! ### C6: setFlag sets only the named flag -/

lemma setField_blacklisted_eq (m : Motorcycle) :
    setField "blacklisted" true m = { m with blacklisted := true } := rfl

lemma setField_expired_eq (m : Motorcycle) :
    setField "expired" true m = { m with expired := true } := rfl

lemma setField_violations_eq (m : Motorcycle) :
    setField "violations" true m = { m with violations := true } := rfl

/-- C6: for each flag, on an existing record the setter reports `true` and a
subsequent find shows that flag `true` with plate number, region and the
other two flags unchanged; on an absent record it reports `false` and the
store state is unchanged (no record is created). -/
theorem set_flag_updates_only_named_flag (coll : List Motorcycle) (P : String) :
    (∀ m, find_motorcycle ⟨some coll⟩ P = some m →
      (update_blacklisted_status ⟨some coll⟩ false P).2 = true ∧
      find_motorcycle (update_blacklisted_status ⟨some coll⟩ false P).1 P
        = some { m with blacklisted := true } ∧
      (update_expired_status ⟨some coll⟩ false P).2 = true ∧
      find_motorcycle (update_expired_status ⟨some coll⟩ false P).1 P
        = some { m with expired := true } ∧
      (update_violations_status ⟨some coll⟩ false P).2 = true ∧
      find_motorcycle (update_violations_status ⟨some coll⟩ false P).1 P
        = some { m with violations := true }) ∧
    (find_motorcycle ⟨some coll⟩ P = none →
      update_blacklisted_status ⟨some coll⟩ false P = (⟨some coll⟩, false) ∧
      update_expired_status ⟨some coll⟩ false P = (⟨some coll⟩, false) ∧
      update_violations_status ⟨some coll⟩ false P = (⟨some coll⟩, false)) := by
  constructor
  · intro m hm
    have h : coll.find? (plateMatches P) = some m := hm
    obtain ⟨hb, hbf⟩ := @update_status_flag_found coll P "blacklisted" true m h
    obtain ⟨he, hef⟩ := @update_status_flag_found coll P "expired" true m h
    obtain ⟨hv, hvf⟩ := @update_status_flag_found coll P "violations" true m h
    exact ⟨congrArg Prod.snd hb, hbf, congrArg Prod.snd he, hef,
      congrArg Prod.snd hv, hvf⟩
  · intro h
    have h' : coll.find? (plateMatches P) = none := h
    exact ⟨update_status_flag_notfound h', update_status_flag_notfound h',
      update_status_flag_notfound h'⟩

theorem set_flag_updates_only_named_flag_witness :
    (update_blacklisted_status ⟨some [⟨"NDA5678", "Cebu", false, false, false⟩]⟩
      false "NDA5678").2 = true ∧
    find_motorcycle
      (update_blacklisted_status ⟨some [⟨"NDA5678", "Cebu", false, false, false⟩]⟩
        false "NDA5678").1 "NDA5678"
      = some ⟨"NDA5678", "Cebu", true, false, false⟩ := by
  have h := (set_flag_updates_only_named_flag
    [⟨"NDA5678", "Cebu", false, false, false⟩] "NDA5678").1
    ⟨"NDA5678", "Cebu", false, false, false⟩ (by decide)
  exact ⟨h.1, h.2.1⟩

/-! ### C7: setFlag is idempotent -/

lemma update_status_flag_idem {coll : List Motorcycle} {P field : String}
    {s : Bool} {m : Motorcycle} (h : coll.find? (plateMatches P) = some m) :
    (_update_status_flag ⟨some coll⟩ false P field s).2 = true ∧
    _update_status_flag (_update_status_flag ⟨some coll⟩ false P field s).1
        false P field s
      = ((_update_status_flag ⟨some coll⟩ false P field s).1, true) := by
  obtain ⟨hstate, _⟩ := update_status_flag_found h
  refine ⟨congrArg Prod.snd hstate, ?_⟩
  rw [hstate]
  have hfind1 : (update_first (plateMatches P) (setField field s) coll).find?
      (plateMatches P) = some (setField field s m) := by
    rw [find?_update_first (fun x => setField_keeps_plateMatches P field s x) coll, h]
    rfl
  have hany1 := any_eq_true_of_find?_eq_some hfind1
  have hidem := update_first_idem (fun x => setField_keeps_plateMatches P field s x)
    (fun x => setField_idem field s x) coll
  simp [_update_status_flag, hany1, hidem]

/-- C7: on an existing record, calling a flag setter twice yields the same
final store state as calling it once, and the second call (on the
already-true flag) still reports `true`. -/
theorem set_flag_idempotent (coll : List Motorcycle) (P : String)
    (m : Motorcycle) (h : find_motorcycle ⟨some coll⟩ P = some m) :
    ((update_blacklisted_status ⟨some coll⟩ false P).2 = true ∧
      update_blacklisted_status (update_blacklisted_status ⟨some coll⟩ false P).1
          false P
        = ((update_blacklisted_status ⟨some coll⟩ false P).1, true)) ∧
    ((update_expired_status ⟨some coll⟩ false P).2 = true ∧
      update_expired_status (update_expired_status ⟨some coll⟩ false P).1 false P
        = ((update_expired_status ⟨some coll⟩ false P).1, true)) ∧
    ((update_violations_status ⟨some coll⟩ false P).2 = true ∧
      update_violations_status (update_violations_status ⟨some coll⟩ false P).1
          false P
        = ((update_violations_status ⟨some coll⟩ false P).1, true)) := by
  have h' : coll.find? (plateMatches P) = some m := h
  exact ⟨@update_status_flag_idem coll P "blacklisted" true m h',
    @update_status_flag_idem coll P "expired" true m h',
    @update_status_flag_idem coll P "violations" true m h'⟩

theorem set_flag_idempotent_witness :
    (update_blacklisted_status ⟨some [⟨"XQJ777", "Davao", true, false, false⟩]⟩
      false "XQJ777").2 = true ∧
    update_blacklisted_status
      (update_blacklisted_status ⟨some [⟨"XQJ777", "Davao", true, false, false⟩]⟩
        false "XQJ777").1 false "XQJ777"
      = ((update_blacklisted_status ⟨some [⟨"XQJ777", "Davao", true, false, false⟩]⟩
          false "XQJ777").1, true) :=
  (set_flag_idempotent [⟨"XQJ777", "Davao", true, false, false⟩] "XQJ777"
    ⟨"XQJ777", "Davao", true, false, false⟩ (by decide)).1

/-! ### C8: clearAllFlags resets the three flags in one write -/

/-- C8: on an existing record (any combination of flags), `clear_all_statuses`
reports `true` and the single write leaves the record with all three flags
`false` and plate number and region unchanged; on an absent record it reports
`false` and changes nothing. -/
theorem clear_all_flags_spec (coll : List Motorcycle) (P : String) :
    (∀ m, find_motorcycle ⟨some coll⟩ P = some m →
      (clear_all_statuses ⟨some coll⟩ false P).2 = true ∧
      find_motorcycle (clear_all_statuses ⟨some coll⟩ false P).1 P
        = some { m with blacklisted := false, expired := false, violations := false }) ∧
    (find_motorcycle ⟨some coll⟩ P = none →
      clear_all_statuses ⟨some coll⟩ false P = (⟨some coll⟩, false)) := by
  constructor
  · intro m hm
    have h : coll.find? (plateMatches P) = some m := hm
    have hany := any_eq_true_of_find?_eq_some h
    have hstate : clear_all_statuses ⟨some coll⟩ false P
        = (⟨some (update_first (plateMatches P) clearFlags coll)⟩, true) := by
      simp [clear_all_statuses, hany]
    refine ⟨congrArg Prod.snd hstate, ?_⟩
    rw [hstate]
    show (update_first (plateMatches P) clearFlags coll).find? (plateMatches P)
        = some { m with blacklisted := false, expired := false, violations := false }
    rw [find?_update_first (fun x => clearFlags_keeps_plateMatches P x) coll, h]
    rfl
  · intro h
    have hany := any_eq_false_of_find?_eq_none h
    simp [clear_all_statuses, hany]

theorem clear_all_flags_spec_witness :
    (clear_all_statuses ⟨some [⟨"NIJ1234", "Metro Manila", true, true, false⟩]⟩
      false "NIJ1234").2 = true ∧
    find_motorcycle
      (clear_all_statuses ⟨some [⟨"NIJ1234", "Metro Manila", true, true, false⟩]⟩
        false "NIJ1234").1 "NIJ1234"
      = some ⟨"NIJ1234", "Metro Manila", false, false, false⟩ :=
  (clear_all_flags_spec [⟨"NIJ1234", "Metro Manila", true, true, false⟩]
    "NIJ1234").1 ⟨"NIJ1234", "Metro Manila", true, true, false⟩ (by decide)

/-! ### C9: delete removes exactly the targeted record -/

/-- C9: on a store with unique plate numbers, deleting an existing record
reports `true`, a subsequent find of that plate reports absent, and every
other plate's lookup is unaffected; deleting an absent plate reports `false`
and changes no store state (the model is a total function, so no unhandled
fault occurs). -/
theorem delete_spec (coll : List Motorcycle) (P : String)
    (hn : (coll.map Motorcycle.plate_number).Nodup) :
    (∀ m, find_motorcycle ⟨some coll⟩ P = some m →
      (delete_motorcycle ⟨some coll⟩ false P).2 = true ∧
      find_motorcycle (delete_motorcycle ⟨some coll⟩ false P).1 P = none ∧
      ∀ q, q ≠ P →
        find_motorcycle (delete_motorcycle ⟨some coll⟩ false P).1 q
          = find_motorcycle ⟨some coll⟩ q) ∧
    (find_motorcycle ⟨some coll⟩ P = none →
      delete_motorcycle ⟨some coll⟩ false P = (⟨some coll⟩, false)) := by
  constructor
  · intro m hm
    have h : coll.find? (plateMatches P) = some m := hm
    have hany := any_eq_true_of_find?_eq_some h
    have hstate : delete_motorcycle ⟨some coll⟩ false P
        = (⟨some (coll.eraseP (plateMatches P))⟩, true) := by
      simp [delete_motorcycle, hany]
    refine ⟨congrArg Prod.snd hstate, ?_, ?_⟩
    · rw [hstate]
      show (coll.eraseP (plateMatches P)).find? (plateMatches P) = none
      exact find?_eraseP_self coll hn
    · intro q hq
      rw [hstate]
      show (coll.eraseP (plateMatches P)).find? (plateMatches q)
          = coll.find? (plateMatches q)
      refine find?_eraseP_frame ?_ coll
      intro m' hm'
      have hp : m'.plate_number = P := plateMatches_iff.mp hm'
      have hne : m'.plate_number ≠ q := by
        rw [hp]; exact fun hc => hq hc.symm
      exact beq_eq_false_iff_ne.mpr hne
  · intro h
    have hany := any_eq_false_of_find?_eq_none h
    simp [delete_motorcycle, hany]

theorem delete_spec_witness :
    (delete_motorcycle ⟨some [⟨"NIJ1234", "Metro Manila", false, false, false⟩,
      ⟨"ABC123", "Cebu", true, false, false⟩]⟩ false "NIJ1234").2 = true ∧
    find_motorcycle (delete_motorcycle
      ⟨some [⟨"NIJ1234", "Metro Manila", false, false, false⟩,
        ⟨"ABC123", "Cebu", true, false, false⟩]⟩ false "NIJ1234").1 "NIJ1234"
      = none ∧
    find_motorcycle (delete_motorcycle
      ⟨some [⟨"NIJ1234", "Metro Manila", false, false, false⟩,
        ⟨"ABC123", "Cebu", true, false, false⟩]⟩ false "NIJ1234").1 "ABC123"
      = find_motorcycle ⟨some [⟨"NIJ1234", "Metro Manila", false, false, false⟩,
          ⟨"ABC123", "Cebu", true, false, false⟩]⟩ "ABC123" := by
  have h := (delete_spec [⟨"NIJ1234", "Metro Manila", false, false, false⟩,
    ⟨"ABC123", "Cebu", true, false, false⟩] "NIJ1234" (by decide)).1
    ⟨"NIJ1234", "Metro Manila", false, false, false⟩ (by decide)
  exact ⟨h.1, h.2.1, h.2.2 "ABC123" (by decide)⟩

/-! ### C3: the uniqueness invariant is preserved by every operation -/

lemma insert_preserves_unique (dal : MotorcycleDAL) (fault : Bool)
    (p r : String) (b e v : Bool) (h : UniquePlates dal) :
    UniquePlates (insert_motorcycle dal fault p r b e v).1 := by
  intro coll' hc'
  rcases hdal : dal.collection with _ | coll
  · have hid : insert_motorcycle dal fault p r b e v = (dal, false) := by
      simp [insert_motorcycle, hdal]
    rw [hid] at hc'
    exact h coll' hc'
  · by_cases hf : fault = true
    · have hid : insert_motorcycle dal fault p r b e v = (dal, false) := by
        simp [insert_motorcycle, hdal, hf]
      rw [hid] at hc'
      exact h coll' hc'
    · by_cases hany : coll.any (plateMatches p) = true
      · have hid : insert_motorcycle dal fault p r b e v = (dal, false) := by
          simp [insert_motorcycle, hdal, hf, hany]
        rw [hid] at hc'
        exact h coll' hc'
      · have hid : insert_motorcycle dal fault p r b e v
            = (⟨some (coll ++ [⟨p, r, b, e, v⟩])⟩, true) := by
          simp [insert_motorcycle, hdal, hf, hany]
        rw [hid] at hc'
        injection hc' with h2
        rw [← h2, List.map_append]
        have hmem : p ∉ coll.map Motorcycle.plate_number := by
          intro hmem
          rcases List.mem_map.mp hmem with ⟨x, hx, hpx⟩
          exact hany (List.any_eq_true.mpr ⟨x, hx, plateMatches_iff.mpr hpx⟩)
        refine List.nodup_append.mpr ⟨h coll hdal, List.nodup_singleton p, ?_⟩
        intro a ha hb
        have : a = p := by simpa using hb
        rw [this] at ha
        exact hmem ha

lemma update_status_flag_preserves_unique (dal : MotorcycleDAL) (fault : Bool)
    (p field : String) (s : Bool) (h : UniquePlates dal) :
    UniquePlates (_update_status_flag dal fault p field s).1 := by
  intro coll' hc'
  rcases hdal : dal.collection with _ | coll
  · have hid : _update_status_flag dal fault p field s = (dal, false) := by
      simp [_update_status_flag, hdal]
    rw [hid] at hc'
    exact h coll' hc'
  · by_cases hf : fault = true
    · have hid : _update_status_flag dal fault p field s = (dal, false) := by
        simp [_update_status_flag, hdal, hf]
      rw [hid] at hc'
      exact h coll' hc'
    · by_cases hany : coll.any (plateMatches p) = true
      · have hid : _update_status_flag dal fault p field s
            = (⟨some (update_first (plateMatches p) (setField field s) coll)⟩, true) := by
          simp [_update_status_flag, hdal, hf, hany]
        rw [hid] at hc'
        injection hc' with h2
        rw [← h2, map_plate_update_first (fun x => setField_plate field s x) coll]
        exact h coll hdal
      · have hid : _update_status_flag dal fault p field s = (dal, false) := by
          simp [_update_status_flag, hdal, hf, hany]
        rw [hid] at hc'
        exact h coll' hc'

lemma clearFlags_plate (m : Motorcycle) :
    (clearFlags m).plate_number = m.plate_number := rfl

lemma clear_preserves_unique (dal : MotorcycleDAL) (fault : Bool) (p : String)
    (h : UniquePlates dal) : UniquePlates (clear_all_statuses dal fault p).1 := by
  intro coll' hc'
  rcases hdal : dal.collection with _ | coll
  · have hid : clear_all_statuses dal fault p = (dal, false) := by
      simp [clear_all_statuses, hdal]
    rw [hid] at hc'
    exact h coll' hc'
  · by_cases hf : fault = true
    · have hid : clear_all_statuses dal fault p = (dal, false) := by
        simp [clear_all_statuses, hdal, hf]
      rw [hid] at hc'
      exact h coll' hc'
    · by_cases hany : coll.any (plateMatches p) = true
      · have hid : clear_all_statuses dal fault p
            = (⟨some (update_first (plateMatches p) clearFlags coll)⟩, true) := by
          simp [clear_all_statuses, hdal, hf, hany]
        rw [hid] at hc'
        injection hc' with h2
        rw [← h2, map_plate_update_first clearFlags_plate coll]
        exact h coll hdal
      · have hid : clear_all_statuses dal fault p = (dal, false) := by
          simp [clear_all_statuses, hdal, hf, hany]
        rw [hid] at hc'
        exact h coll' hc'

lemma delete_preserves_unique (dal : MotorcycleDAL) (fault : Bool) (p : String)
    (h : UniquePlates dal) : UniquePlates (delete_motorcycle dal fault p).1 := by
  intro coll' hc'
  rcases hdal : dal.collection with _ | coll
  · have hid : delete_motorcycle dal fault p = (dal, false) := by
      simp [delete_motorcycle, hdal]
    rw [hid] at hc'
    exact h coll' hc'
  · by_cases hf : fault = true
    · have hid : delete_motorcycle dal fault p = (dal, false) := by
        simp [delete_motorcycle, hdal, hf]
      rw [hid] at hc'
      exact h coll' hc'
    · by_cases hany : coll.any (plateMatches p) = true
      · have hid : delete_motorcycle dal fault p
            = (⟨some (coll.eraseP (plateMatches p))⟩, true) := by
          simp [delete_motorcycle, hdal, hf, hany]
        rw [hid] at hc'
        injection hc' with h2
        rw [← h2]
        exact List.Nodup.sublist
          (List.Sublist.map Motorcycle.plate_number (List.eraseP_sublist coll))
          (h coll hdal)
      · have hid : delete_motorcycle dal fault p = (dal, false) := by
          simp [delete_motorcycle, hdal, hf, hany]
        rw [hid] at hc'
        exact h coll' hc'

lemma applyOp_preserves_unique (dal : MotorcycleDAL) (op : Op)
    (h : UniquePlates dal) : UniquePlates (applyOp dal op) := by
  cases op with
  | ins fault p r b e v => exact insert_preserves_unique dal fault p r b e v h
  | setBlack fault p => exact update_status_flag_preserves_unique dal fault p "blacklisted" true h
  | setExpired fault p => exact update_status_flag_preserves_unique dal fault p "expired" true h
  | setViolations fault p => exact update_status_flag_preserves_unique dal fault p "violations" true h
  | clearAll fault p => exact clear_preserves_unique dal fault p h
  | del fault p => exact delete_preserves_unique dal fault p h

/-- C3: starting from a store with no duplicate plate numbers, any sequence
of record-store operations (insert, flag setters, clear-all, delete) leaves
at most one record per plate number: the insert path rejects duplicates and
no other operation changes or duplicates plate numbers. -/
theorem uniqueness_invariant_preserved (dal : MotorcycleDAL) (ops : List Op)
    (h : UniquePlates dal) : UniquePlates (applyOps dal ops) := by
  induction ops generalizing dal with
  | nil => exact h
  | cons op t ih => exact ih (applyOp dal op) (applyOp_preserves_unique dal op h)

theorem uniqueness_invariant_preserved_witness :
    UniquePlates (applyOps ⟨some []⟩
      [Op.ins false "NIJ1234" "Metro Manila" false false false,
       Op.ins false "NIJ1234" "Davao" true true true,
       Op.setBlack false "NIJ1234",
       Op.clearAll false "NIJ1234",
       Op.ins false "ABC123" "Cebu" false false false,
       Op.del false "ZZZ999"]) := by
  apply uniqueness_invariant_preserved
  intro coll hc
  injection hc with h2
  rw [← h2]
  exact List.nodup_nil

/-! ### C2: field assignment by vertical position -/

/-- C2 counterexample: with zero OCR fragments the extractor does not return
the empty string for the plate-number field; it returns the sentinel text
"No text found.". -/
theorem ocr_empty_response_gives_sentinel :
    (get_ocr_result_with_boxes []).1 = "No text found." ∧
    (get_ocr_result_with_boxes []).1 ≠ "" := by
  refine ⟨rfl, ?_⟩
  decide

/-- C2 amended: the extractor sorts the fragments by vertical position (y of
the first corner point) and assigns the stripped text of the topmost fragment
as plate number and of the second as region; with exactly one fragment the
region is the empty string; with zero fragments the plate-number field is the
sentinel "No text found." (not the empty string) and the region is empty. -/
theorem ocr_assigns_fields_by_vertical_position (bs : List WordsBlock) :
    (bs = [] → get_ocr_result_with_boxes bs = ("No text found.", "", [])) ∧
    (bs ≠ [] → ∃ l : List WordsBlock, l.Perm bs ∧ l.Sorted byY ∧
      (get_ocr_result_with_boxes bs).1 = pyStrip (l.headD ⟨"", []⟩).words ∧
      (2 ≤ bs.length →
        (get_ocr_result_with_boxes bs).2.1
          = pyStrip ((l.drop 1).headD ⟨"", []⟩).words) ∧
      (bs.length < 2 → (get_ocr_result_with_boxes bs).2.1 = "")) := by
  constructor
  · intro h
    subst h
    rfl
  · intro h
    have hne : bs.isEmpty = false := List.isEmpty_eq_false.mpr h
    have hlen : (bs.insertionSort byY).length = bs.length :=
      (List.perm_insertionSort byY bs).length_eq
    have h1 : 1 ≤ (bs.insertionSort byY).length := by
      rw [hlen]
      exact List.length_pos.mpr h
    refine ⟨bs.insertionSort byY, List.perm_insertionSort byY bs,
      List.sorted_insertionSort byY bs, ?_, ?_, ?_⟩
    · simp [get_ocr_result_with_boxes, hne, h1]
      exact fun h' => absurd h' h
    · intro h2
      have h2' : 2 ≤ (bs.insertionSort byY).length := by
        rw [hlen]; exact h2
      simp [get_ocr_result_with_boxes, hne, h2']
      exact fun hlt => absurd h2 (Nat.not_le.mpr hlt)
    · intro h2
      have h2' : ¬(2 ≤ (bs.insertionSort byY).length) := by
        rw [hlen]; omega
      simp [get_ocr_result_with_boxes, hne, h2']
      exact fun hge => absurd hge (Nat.not_le.mpr h2)

theorem ocr_assigns_fields_witness :
    ∃ l : List WordsBlock,
      l.Perm [⟨" ABC 123 ", [(0, 40)]⟩] ∧ l.Sorted byY ∧
      (get_ocr_result_with_boxes [⟨" ABC 123 ", [(0, 40)]⟩]).1
        = pyStrip (l.headD ⟨"", []⟩).words ∧
      (2 ≤ ([⟨" ABC 123 ", [(0, 40)]⟩] : List WordsBlock).length →
        (get_ocr_result_with_boxes [⟨" ABC 123 ", [(0, 40)]⟩]).2.1
          = pyStrip ((l.drop 1).headD ⟨"", []⟩).words) ∧
      (([⟨" ABC 123 ", [(0, 40)]⟩] : List WordsBlock).length < 2 →
        (get_ocr_result_with_boxes [⟨" ABC 123 ", [(0, 40)]⟩]).2.1 = "") :=
  (ocr_assigns_fields_by_vertical_position [⟨" ABC 123 ", [(0, 40)]⟩]).2 (by decide)
